import Mathlib

/-
Verification of the Valdox validation library (src/valdox.hpp together with
its test suite src/tests/main_test.cpp) against its natural-language
specification.

The development shallowly embeds the library:
* numeric validators are instantiated at the integer type (the C++ templates
  are used at `int` throughout the test suite);
* `std::string` is modelled by `String` (all inputs appearing in the claims
  are ASCII, where byte length and character length coincide);
* `std::regex_match` (ECMAScript grammar) is modelled by a small executable
  backtracking matcher covering exactly the constructs appearing in the
  library's patterns: literals, escapes, character classes with ranges and
  the \s \d \w classes, alternation (including an empty branch), capturing
  and non-capturing groups, the greedy postfix operators ? * + {n} {n,}
  {n,m}, the any-character dot and the ^ $ assertions;
* the process-global `stringRegexMatchFn` strategy variable is modelled by
  passing the strategy function explicitly;
* C++ exceptions do not arise: every embedded operation is a total function.
-/

/-! ## String helpers -/

/-- `listStartsWith sub s` is true when `sub` is a prefix of `s`. -/
def listStartsWith : List Char → List Char → Bool
  | [], _ => true
  | _ :: _, [] => false
  | a :: as, b :: bs => a == b && listStartsWith as bs

/-- `listContainsSub s sub` is true when `sub` occurs contiguously in `s`. -/
def listContainsSub : List Char → List Char → Bool
  | [], sub => sub.isEmpty
  | c :: rest, sub => listStartsWith sub (c :: rest) || listContainsSub rest sub

/-- Substring containment on strings (models `str.find(sub) != npos`). -/
def strContains (s sub : String) : Bool :=
  listContainsSub s.data sub.data

/-! ## A model of the ECMAScript regular-expression dialect of `std::regex`

Restricted to the constructs used by the patterns in src/valdox.hpp. -/

/-- One item of a bracket character class. -/
inductive ClsItem where
  | single (c : Char)
  | range (lo hi : Char)
  | digit
  | space
  | word

/-- ECMAScript whitespace characters (ASCII part). -/
def isSpaceChar (c : Char) : Bool :=
  c == ' ' || c == '\t' || c == '\n' || c == '\r' || c == Char.ofNat 11 || c == Char.ofNat 12

/-- ECMAScript word characters. -/
def isWordChar (c : Char) : Bool :=
  c.isAlphanum || c == '_'

/-- Does character `c` match one class item? -/
def clsItemMatch (c : Char) : ClsItem → Bool
  | ClsItem.single a => c == a
  | ClsItem.range lo hi => decide (lo ≤ c) && decide (c ≤ hi)
  | ClsItem.digit => c.isDigit
  | ClsItem.space => isSpaceChar c
  | ClsItem.word => isWordChar c

/-- Abstract syntax of the supported regular expressions. -/
inductive RE where
  | eps
  | chr (c : Char)
  | anyc
  | cls (neg : Bool) (items : List ClsItem)
  | bos
  | eos
  | cat (r1 r2 : RE)
  | alt (r1 r2 : RE)
  | star (r : RE)
  | grp (idx : Nat) (r : RE)

/-- Backtracking matcher in continuation-passing style.  `total` is the
length of the whole subject (for the `^` assertion), `fuel` bounds the
recursion depth, `caps` is the current capture-group assignment and `k`
the continuation receiving the remaining input.  Alternation tries the
left branch first and `star` is greedy, matching ECMAScript's
leftmost-greedy disambiguation; an iteration of `star` that consumes no
input terminates the loop, matching ECMAScript's empty-repetition rule. -/
def reMatch (total : Nat) :
    Nat → RE → List Char → List (List Char) →
    (List Char → List (List Char) → Option (List (List Char))) →
    Option (List (List Char))
  | 0, _, _, _, _ => none
  | _ + 1, RE.eps, s, caps, k => k s caps
  | _ + 1, RE.chr c, s, caps, k =>
    match s with
    | [] => none
    | c' :: rest => if c == c' then k rest caps else none
  | _ + 1, RE.anyc, s, caps, k =>
    match s with
    | [] => none
    | c :: rest => if c == '\n' || c == '\r' then none else k rest caps
  | _ + 1, RE.cls neg items, s, caps, k =>
    match s with
    | [] => none
    | c :: rest =>
      let m := items.any (clsItemMatch c)
      if (if neg then !m else m) then k rest caps else none
  | _ + 1, RE.bos, s, caps, k => if s.length == total then k s caps else none
  | _ + 1, RE.eos, s, caps, k => if s.isEmpty then k s caps else none
  | fuel + 1, RE.cat r1 r2, s, caps, k =>
    reMatch total fuel r1 s caps (fun s' caps' => reMatch total fuel r2 s' caps' k)
  | fuel + 1, RE.alt r1 r2, s, caps, k =>
    match reMatch total fuel r1 s caps k with
    | some res => some res
    | none => reMatch total fuel r2 s caps k
  | fuel + 1, RE.star r, s, caps, k =>
    match reMatch total fuel r s caps (fun s' caps' =>
        if s'.length < s.length then reMatch total fuel (RE.star r) s' caps' k else none) with
    | some res => some res
    | none => k s caps
  | fuel + 1, RE.grp idx r, s, caps, k =>
    reMatch total fuel r s caps
      (fun s' caps' => k s' (caps'.set (idx - 1) (s.take (s.length - s'.length))))

/-- `n`-fold repetition of a regex (for the `{n}` and `{n,}` quantifiers). -/
def repN : Nat → RE → RE
  | 0, _ => RE.eps
  | n + 1, r => RE.cat r (repN n r)

/-- Up to `n` further greedy repetitions (for the `{n,m}` quantifier). -/
def optChain : Nat → RE → RE
  | 0, _ => RE.eps
  | n + 1, r => RE.alt (RE.cat r (optChain n r)) RE.eps

/-- Expansion of a counted quantifier `{n}` / `{n,}` / `{n,m}`. -/
def expandRep (r : RE) (n : Nat) (hasComma : Bool) (m : Option Nat) : RE :=
  match hasComma, m with
  | false, _ => repN n r
  | true, none => RE.cat (repN n r) (RE.star r)
  | true, some m => RE.cat (repN n r) (optChain (m - n) r)

/-- Read a run of decimal digits, accumulating its value. -/
def digitsVal : List Char → Nat → Nat × List Char
  | [], acc => (acc, [])
  | c :: rest, acc =>
    if c.isDigit then digitsVal rest (acc * 10 + (c.toNat - 48)) else (acc, c :: rest)

/-- Parse the inside of a counted quantifier after the opening brace:
digits, optionally a comma and further digits, then the closing brace. -/
def parseBound (cs : List Char) : Option (Nat × Bool × Option Nat × List Char) :=
  match cs with
  | [] => none
  | c :: _ =>
    if c.isDigit then
      match digitsVal cs 0 with
      | (n, rest) =>
        match rest with
        | '}' :: rest' => some (n, false, none, rest')
        | ',' :: '}' :: rest' => some (n, true, none, rest')
        | ',' :: d :: rest' =>
          if d.isDigit then
            match digitsVal (d :: rest') 0 with
            | (m, rest'') =>
              match rest'' with
              | '}' :: rest3 => some (n, true, some m, rest3)
              | _ => none
          else none
        | _ => none
    else none

/-- Parse the items of a bracket class up to the closing bracket. -/
def parseClsItems : Nat → List Char → Option (List ClsItem × List Char)
  | 0, _ => none
  | fuel + 1, cs =>
    match cs with
    | [] => none
    | ']' :: rest => some ([], rest)
    | '\\' :: e :: rest =>
      let item :=
        match e with
        | 's' => ClsItem.space
        | 'd' => ClsItem.digit
        | 'w' => ClsItem.word
        | _ => ClsItem.single e
      match parseClsItems fuel rest with
      | some (items, r) => some (item :: items, r)
      | none => none
    | a :: '-' :: b :: rest =>
      if b == ']' then
        match parseClsItems fuel (b :: rest) with
        | some (items, r) => some (ClsItem.single a :: ClsItem.single '-' :: items, r)
        | none => none
      else
        match parseClsItems fuel rest with
        | some (items, r) => some (ClsItem.range a b :: items, r)
        | none => none
    | a :: rest =>
      match parseClsItems fuel rest with
      | some (items, r) => some (ClsItem.single a :: items, r)
      | none => none

/-- Parser modes: an alternation, a concatenation sequence, one quantified
atom, or one bare atom.  A single fuel-indexed function (rather than four
mutually recursive ones) keeps the recursion structural so that concrete
patterns evaluate by kernel reduction. -/
inductive PMode where
  | alt
  | seq
  | atomPost
  | atom

/-- The pattern parser.  `g` is the number of capturing groups opened so
far; groups are numbered by their opening parenthesis, left to right, as in
ECMAScript.  In `alt` mode it parses a `|`-separated list of sequences
(an empty branch parses to `eps`); in `seq` mode a concatenation of
quantified atoms; in `atomPost` mode one atom followed by an optional
postfix quantifier; in `atom` mode a group, class, escape, assertion, dot
or literal. -/
def parseM : Nat → PMode → List Char → Nat → Option (RE × List Char × Nat)
  | 0, _, _, _ => none
  | fuel + 1, PMode.alt, cs, g =>
    match parseM fuel PMode.seq cs g with
    | none => none
    | some (r, rest, g') =>
      match rest with
      | '|' :: rest' =>
        match parseM fuel PMode.alt rest' g' with
        | none => none
        | some (r2, rest'', g'') => some (RE.alt r r2, rest'', g'')
      | _ => some (r, rest, g')
  | fuel + 1, PMode.seq, cs, g =>
    match cs with
    | [] => some (RE.eps, [], g)
    | ')' :: _ => some (RE.eps, cs, g)
    | '|' :: _ => some (RE.eps, cs, g)
    | _ =>
      match parseM fuel PMode.atomPost cs g with
      | none => none
      | some (r, rest, g') =>
        match parseM fuel PMode.seq rest g' with
        | none => none
        | some (r2, rest', g'') => some (RE.cat r r2, rest', g'')
  | fuel + 1, PMode.atomPost, cs, g =>
    match parseM fuel PMode.atom cs g with
    | none => none
    | some (r, rest, g') =>
      match rest with
      | '?' :: rest' => some (RE.alt r RE.eps, rest', g')
      | '*' :: rest' => some (RE.star r, rest', g')
      | '+' :: rest' => some (RE.cat r (RE.star r), rest', g')
      | '{' :: rest' =>
        match parseBound rest' with
        | some (n, hasComma, m, rest'') => some (expandRep r n hasComma m, rest'', g')
        | none => none
      | _ => some (r, rest, g')
  | fuel + 1, PMode.atom, cs, g =>
    match cs with
    | '(' :: '?' :: ':' :: rest =>
      match parseM fuel PMode.alt rest g with
      | some (r, ')' :: rest', g') => some (r, rest', g')
      | _ => none
    | '(' :: '?' :: _ => none
    | '(' :: rest =>
      match parseM fuel PMode.alt rest (g + 1) with
      | some (r, ')' :: rest', g') => some (RE.grp (g + 1) r, rest', g')
      | _ => none
    | '[' :: '^' :: rest =>
      match parseClsItems fuel rest with
      | some (items, rest') => some (RE.cls true items, rest', g)
      | none => none
    | '[' :: rest =>
      match parseClsItems fuel rest with
      | some (items, rest') => some (RE.cls false items, rest', g)
      | none => none
    | '\\' :: e :: rest =>
      let r :=
        match e with
        | 's' => RE.cls false [ClsItem.space]
        | 'd' => RE.cls false [ClsItem.digit]
        | 'w' => RE.cls false [ClsItem.word]
        | 'S' => RE.cls true [ClsItem.space]
        | 'D' => RE.cls true [ClsItem.digit]
        | 'W' => RE.cls true [ClsItem.word]
        | _ => RE.chr e
      some (r, rest, g)
    | '.' :: rest => some (RE.anyc, rest, g)
    | '^' :: rest => some (RE.bos, rest, g)
    | '$' :: rest => some (RE.eos, rest, g)
    | c :: rest =>
      if c == '|' || c == ')' || c == '*' || c == '+' || c == '?' || c == '{'
          || c == '}' || c == ']' || c == '\\' then none
      else some (RE.chr c, rest, g)
    | [] => none

/-- Parse a whole pattern; returns the syntax tree and the number of
capturing groups.  `none` models `std::regex` rejecting the pattern. -/
def parseRegexString (pattern : String) : Option (RE × Nat) :=
  match parseM ((pattern.length + 1) * 8 + 64) PMode.alt pattern.data 0 with
  | some (r, [], g) => some (r, g)
  | _ => none

/-- Model of `std::regex_match(value, match, std::regex(pattern))`: the whole
subject must match (anchored at both ends).  On success, returns the list of
captured substrings for groups `1..n` in group order (the unmatched groups
capture the empty string, as `sub_match::str()` renders them). -/
def regexFullMatch (pattern value : String) : Option (List String) :=
  match parseRegexString pattern with
  | none => none
  | some (r, g) =>
    let cs := value.data
    match reMatch cs.length ((pattern.length + 2) * (cs.length + 2) * 4 + 256) r cs
        (List.replicate g [])
        (fun rest caps => if rest.isEmpty then some caps else none) with
    | none => none
    | some caps => some (caps.map (fun l => String.mk l))

/-- Boolean form of `std::regex_match` (captures discarded). -/
def regexMatchB (pattern value : String) : Bool :=
  (regexFullMatch pattern value).isSome

/-! ## The injectable regex matching strategy (src/valdox.hpp lines 12-23)

The C++ library stores the strategy in the process-global variable
`stringRegexMatchFn`, initialised to a default built on `std::regex_match`.
The global is modelled by passing the strategy function explicitly; the
definition `stringRegexMatchFn` below is its default value. -/

/-- Type of the pluggable strategy: pattern, value, and the caller's capture
list; returns the match flag and the (possibly extended) capture list. -/
def StringRegexMatchFn : Type :=
  String → String → List String → Bool × List String

/-- The default strategy: full-string `std::regex_match`, then one capture
per capturing group in group order, appended to the caller's list
(group 0, the whole match, is omitted). -/
def stringRegexMatchFn : StringRegexMatchFn := fun regex value ms =>
  match regexFullMatch regex value with
  | none => (false, ms)
  | some caps => (true, ms ++ caps)

/-- A substituted strategy that rejects every value (used to exercise the
claim that format validators route through the strategy). -/
def rejectAllStrategy : StringRegexMatchFn := fun _ _ ms => (false, ms)

/-! ## Numeric validators (src/valdox.hpp lines 33-236), at the integer type -/

/-- `NumberBetweenValidator<T>` at `T = int`. -/
structure NumberBetweenValidator where
  min : Int
  max : Int
  includeMin : Bool
  includeMax : Bool

def NumberBetweenValidator.validate (v : NumberBetweenValidator) (value : Int) : Bool :=
  (if v.includeMin then decide (value ≥ v.min) else decide (value > v.min)) &&
  (if v.includeMax then decide (value ≤ v.max) else decide (value < v.max))

def NumberBetweenValidator.errorMessage (v : NumberBetweenValidator)
    (varName : String) (value : Int) : String :=
  "ValidationError: '" ++ varName ++ "' received " ++ toString value ++ ", expected "
    ++ toString v.min ++ (if v.includeMin then " <= " else " < ") ++ "\x7bvalue\x7d"
    ++ (if v.includeMax then " <= " else " < ") ++ toString v.max ++ "."

def NumberBetweenValidator.validateE (v : NumberBetweenValidator)
    (value : Int) (varName : String) (errors : List String) : Bool × List String :=
  if v.validate value then (true, errors)
  else (false, errors ++ [v.errorMessage varName value])

def NumberBetweenValidator.clamp (v : NumberBetweenValidator) (value : Int) : Int :=
  if value < v.min then (if v.includeMin then v.min else v.min + 1)
  else if value > v.max then (if v.includeMax then v.max else v.max - 1)
  else value

/-- `NumberGreaterThanValidator<T>` at `T = int`. -/
structure NumberGreaterThanValidator where
  min : Int

def NumberGreaterThanValidator.validate (v : NumberGreaterThanValidator) (value : Int) : Bool :=
  decide (value > v.min)

def NumberGreaterThanValidator.errorMessage (v : NumberGreaterThanValidator)
    (varName : String) (value : Int) : String :=
  "ValidationError: '" ++ varName ++ "' received " ++ toString value
    ++ ", expected value greater than " ++ toString v.min ++ "."

def NumberGreaterThanValidator.validateE (v : NumberGreaterThanValidator)
    (value : Int) (varName : String) (errors : List String) : Bool × List String :=
  if v.validate value then (true, errors)
  else (false, errors ++ [v.errorMessage varName value])

def NumberGreaterThanValidator.clamp (v : NumberGreaterThanValidator) (value : Int) : Int :=
  if value < v.min then v.min + 1 else value

/-- `NumberGreaterOrEqualValidator<T>` at `T = int`. -/
structure NumberGreaterOrEqualValidator where
  min : Int

def NumberGreaterOrEqualValidator.validate (v : NumberGreaterOrEqualValidator)
    (value : Int) : Bool :=
  decide (value ≥ v.min)

def NumberGreaterOrEqualValidator.errorMessage (v : NumberGreaterOrEqualValidator)
    (varName : String) (value : Int) : String :=
  "ValidationError: '" ++ varName ++ "' received " ++ toString value
    ++ ", expected value >= " ++ toString v.min ++ "."

def NumberGreaterOrEqualValidator.validateE (v : NumberGreaterOrEqualValidator)
    (value : Int) (varName : String) (errors : List String) : Bool × List String :=
  if v.validate value then (true, errors)
  else (false, errors ++ [v.errorMessage varName value])

def NumberGreaterOrEqualValidator.clamp (v : NumberGreaterOrEqualValidator)
    (value : Int) : Int :=
  if value < v.min then v.min else value

/-- `NumberLessThanValidator<T>` at `T = int`. -/
structure NumberLessThanValidator where
  max : Int

def NumberLessThanValidator.validate (v : NumberLessThanValidator) (value : Int) : Bool :=
  decide (value < v.max)

def NumberLessThanValidator.errorMessage (v : NumberLessThanValidator)
    (varName : String) (value : Int) : String :=
  "ValidationError: '" ++ varName ++ "' received " ++ toString value
    ++ ", expected value less than " ++ toString v.max ++ "."

def NumberLessThanValidator.validateE (v : NumberLessThanValidator)
    (value : Int) (varName : String) (errors : List String) : Bool × List String :=
  if v.validate value then (true, errors)
  else (false, errors ++ [v.errorMessage varName value])

def NumberLessThanValidator.clamp (v : NumberLessThanValidator) (value : Int) : Int :=
  if value > v.max then v.max - 1 else value

/-- `NumberLessOrEqualValidator<T>` at `T = int`. -/
structure NumberLessOrEqualValidator where
  max : Int

def NumberLessOrEqualValidator.validate (v : NumberLessOrEqualValidator) (value : Int) : Bool :=
  decide (value ≤ v.max)

def NumberLessOrEqualValidator.errorMessage (v : NumberLessOrEqualValidator)
    (varName : String) (value : Int) : String :=
  "ValidationError: '" ++ varName ++ "' received " ++ toString value
    ++ ", expected value <= " ++ toString v.max ++ "."

def NumberLessOrEqualValidator.validateE (v : NumberLessOrEqualValidator)
    (value : Int) (varName : String) (errors : List String) : Bool × List String :=
  if v.validate value then (true, errors)
  else (false, errors ++ [v.errorMessage varName value])

def NumberLessOrEqualValidator.clamp (v : NumberLessOrEqualValidator) (value : Int) : Int :=
  if value > v.max then v.max else value

/-- `NumberMultipleOfValidator<T>` at `T = int`; `%` is the C++ truncating
remainder, i.e. `Int.tmod`. -/
structure NumberMultipleOfValidator where
  divisor : Int

def NumberMultipleOfValidator.validate (v : NumberMultipleOfValidator) (value : Int) : Bool :=
  decide (Int.tmod value v.divisor = 0)

def NumberMultipleOfValidator.errorMessage (v : NumberMultipleOfValidator)
    (varName : String) (value : Int) : String :=
  "ValidationError: '" ++ varName ++ "' received " ++ toString value
    ++ ", expected multiple of " ++ toString v.divisor ++ "."

def NumberMultipleOfValidator.validateE (v : NumberMultipleOfValidator)
    (value : Int) (varName : String) (errors : List String) : Bool × List String :=
  if v.validate value then (true, errors)
  else (false, errors ++ [v.errorMessage varName value])

/-- `NumberLiteralValidator<T>` at `T = int`. -/
structure NumberLiteralValidator where
  literals : List Int

def NumberLiteralValidator.validate (v : NumberLiteralValidator) (value : Int) : Bool :=
  v.literals.any (fun lit => value == lit)

def NumberLiteralValidator.errorMessage (v : NumberLiteralValidator)
    (varName : String) (value : Int) : String :=
  "ValidationError: '" ++ varName ++ "' received " ++ toString value
    ++ ", expected one of [" ++ String.intercalate ", " (v.literals.map toString) ++ "]."

def NumberLiteralValidator.validateE (v : NumberLiteralValidator)
    (value : Int) (varName : String) (errors : List String) : Bool × List String :=
  if v.validate value then (true, errors)
  else (false, errors ++ [v.errorMessage varName value])

/-! ## String length validators (src/valdox.hpp lines 238-303) -/

/-- `StringLengthBetweenValidator` (inclusive bounds on the length). -/
structure StringLengthBetweenValidator where
  min : Nat
  max : Nat

def StringLengthBetweenValidator.validate (v : StringLengthBetweenValidator)
    (value : String) : Bool :=
  decide (value.length ≥ v.min) && decide (value.length ≤ v.max)

def StringLengthBetweenValidator.errorMessage (v : StringLengthBetweenValidator)
    (varName value : String) : String :=
  "ValidationError: '" ++ varName ++ "' received \"" ++ value
    ++ "\", expected length between " ++ toString v.min ++ " and " ++ toString v.max ++ "."

def StringLengthBetweenValidator.validateE (v : StringLengthBetweenValidator)
    (value varName : String) (errors : List String) : Bool × List String :=
  if v.validate value then (true, errors)
  else (false, errors ++ [v.errorMessage varName value])

/-- `StringLengthMinValidator`. -/
structure StringLengthMinValidator where
  min : Nat

def StringLengthMinValidator.validate (v : StringLengthMinValidator) (value : String) : Bool :=
  decide (value.length ≥ v.min)

def StringLengthMinValidator.errorMessage (v : StringLengthMinValidator)
    (varName value : String) : String :=
  "ValidationError: '" ++ varName ++ "' received \"" ++ value
    ++ "\", expected length >= " ++ toString v.min ++ "."

def StringLengthMinValidator.validateE (v : StringLengthMinValidator)
    (value varName : String) (errors : List String) : Bool × List String :=
  if v.validate value then (true, errors)
  else (false, errors ++ [v.errorMessage varName value])

/-- `StringLengthMaxValidator`; also offers `crop`. -/
structure StringLengthMaxValidator where
  max : Nat

def StringLengthMaxValidator.validate (v : StringLengthMaxValidator) (value : String) : Bool :=
  decide (value.length ≤ v.max)

def StringLengthMaxValidator.errorMessage (v : StringLengthMaxValidator)
    (varName value : String) : String :=
  "ValidationError: '" ++ varName ++ "' received \"" ++ value
    ++ "\", expected length <= " ++ toString v.max ++ "."

def StringLengthMaxValidator.validateE (v : StringLengthMaxValidator)
    (value varName : String) (errors : List String) : Bool × List String :=
  if v.validate value then (true, errors)
  else (false, errors ++ [v.errorMessage varName value])

def StringLengthMaxValidator.crop (v : StringLengthMaxValidator) (value : String) : String :=
  value.take v.max

/-! ## String content validators (src/valdox.hpp lines 305-433) -/

/-- `StringLiteralValidator`. -/
structure StringLiteralValidator where
  literals : List String

def StringLiteralValidator.validate (v : StringLiteralValidator) (value : String) : Bool :=
  v.literals.any (fun lit => value == lit)

def StringLiteralValidator.errorMessage (v : StringLiteralValidator)
    (varName value : String) : String :=
  "ValidationError: '" ++ varName ++ "' received \"" ++ value ++ "\", expected one of ["
    ++ String.intercalate ", " (v.literals.map (fun lit => "\"" ++ lit ++ "\"")) ++ "]."

def StringLiteralValidator.validateE (v : StringLiteralValidator)
    (value varName : String) (errors : List String) : Bool × List String :=
  if v.validate value then (true, errors)
  else (false, errors ++ [v.errorMessage varName value])

/-- `StringStartsWithValidator`; the C++ field is named `prefix`, a reserved
word in Lean, rendered here as `pre`. -/
structure StringStartsWithValidator where
  pre : String

def StringStartsWithValidator.validate (v : StringStartsWithValidator) (value : String) : Bool :=
  decide (value.length ≥ v.pre.length) && (value.take v.pre.length == v.pre)

def StringStartsWithValidator.errorMessage (v : StringStartsWithValidator)
    (varName value : String) : String :=
  "ValidationError: '" ++ varName ++ "' received \"" ++ value
    ++ "\", expected to start with \"" ++ v.pre ++ "\"."

def StringStartsWithValidator.validateE (v : StringStartsWithValidator)
    (value varName : String) (errors : List String) : Bool × List String :=
  if v.validate value then (true, errors)
  else (false, errors ++ [v.errorMessage varName value])

/-- `StringEndsWithValidator`; the C++ field is named `suffix`, rendered `sfx`. -/
structure StringEndsWithValidator where
  sfx : String

def StringEndsWithValidator.validate (v : StringEndsWithValidator) (value : String) : Bool :=
  decide (value.length ≥ v.sfx.length) && (value.drop (value.length - v.sfx.length) == v.sfx)

def StringEndsWithValidator.errorMessage (v : StringEndsWithValidator)
    (varName value : String) : String :=
  "ValidationError: '" ++ varName ++ "' received \"" ++ value
    ++ "\", expected to end with \"" ++ v.sfx ++ "\"."

def StringEndsWithValidator.validateE (v : StringEndsWithValidator)
    (value varName : String) (errors : List String) : Bool × List String :=
  if v.validate value then (true, errors)
  else (false, errors ++ [v.errorMessage varName value])

/-- `StringIncludesValidator` (`value.find(substring) != npos`). -/
structure StringIncludesValidator where
  substring : String

def StringIncludesValidator.validate (v : StringIncludesValidator) (value : String) : Bool :=
  strContains value v.substring

def StringIncludesValidator.errorMessage (v : StringIncludesValidator)
    (varName value : String) : String :=
  "ValidationError: '" ++ varName ++ "' received \"" ++ value
    ++ "\", expected to include \"" ++ v.substring ++ "\"."

def StringIncludesValidator.validateE (v : StringIncludesValidator)
    (value varName : String) (errors : List String) : Bool × List String :=
  if v.validate value then (true, errors)
  else (false, errors ++ [v.errorMessage varName value])

/-- `StringRegexValidator` (src/valdox.hpp lines 393-433): the only validator
that routes through the injectable strategy `stringRegexMatchFn`; the
process-global strategy is passed explicitly as `fn`. -/
structure StringRegexValidator where
  regex : String

/-- `StringRegexValidator::match(value, matches)`: delegates to the strategy. -/
def StringRegexValidator.matchWith (v : StringRegexValidator) (fn : StringRegexMatchFn)
    (value : String) (ms : List String) : Bool × List String :=
  fn v.regex value ms

/-- `StringRegexValidator::validate(value)`: a fresh capture list, result
discarded except for the flag. -/
def StringRegexValidator.validateWith (v : StringRegexValidator) (fn : StringRegexMatchFn)
    (value : String) : Bool :=
  (v.matchWith fn value []).1

def StringRegexValidator.errorMessage (v : StringRegexValidator)
    (varName value : String) : String :=
  "ValidationError: '" ++ varName ++ "' received \"" ++ value
    ++ "\", expected to match regex /" ++ v.regex ++ "/."

def StringRegexValidator.validateE (v : StringRegexValidator) (fn : StringRegexMatchFn)
    (value varName : String) (errors : List String) : Bool × List String :=
  if v.validateWith fn value then (true, errors)
  else (false, errors ++ [v.errorMessage varName value])

/-! ## Format validators (src/valdox.hpp lines 435-723)

Each format validator stores a fixed regular expression and calls
`std::regex_match(value, std::regex(regex))` directly in `validate` —
not the injectable strategy `stringRegexMatchFn`. -/

/-- `StringEmailValidator`. -/
structure StringEmailValidator where
  regex : String

def StringEmailValidator.getRegex : String :=
  "^[a-zA-Z0-9._%+-]+@[a-zA-Z0-9.-]+\\.[a-zA-Z]\x7b2,\x7d$"

def StringEmailValidator.mkv : StringEmailValidator :=
  ⟨StringEmailValidator.getRegex⟩

def StringEmailValidator.validate (v : StringEmailValidator) (value : String) : Bool :=
  regexMatchB v.regex value

def StringEmailValidator.errorMessage (_v : StringEmailValidator)
    (varName value : String) : String :=
  "ValidationError: '" ++ varName ++ "' received \"" ++ value
    ++ "\", expected to be a valid email address."

def StringEmailValidator.validateE (v : StringEmailValidator)
    (value varName : String) (errors : List String) : Bool × List String :=
  if v.validate value then (true, errors)
  else (false, errors ++ [v.errorMessage varName value])

/-- `StringUuidValidator`. -/
structure StringUuidValidator where
  regex : String

def StringUuidValidator.getRegex : String :=
  "^[0-9a-fA-F]\x7b8\x7d-[0-9a-fA-F]\x7b4\x7d-[1-8][0-9a-fA-F]\x7b3\x7d-[89abAB][0-9a-fA-F]\x7b3\x7d-[0-9a-fA-F]\x7b12\x7d$"

def StringUuidValidator.mkv : StringUuidValidator :=
  ⟨StringUuidValidator.getRegex⟩

def StringUuidValidator.validate (v : StringUuidValidator) (value : String) : Bool :=
  regexMatchB v.regex value

def StringUuidValidator.errorMessage (_v : StringUuidValidator)
    (varName value : String) : String :=
  "ValidationError: '" ++ varName ++ "' received \"" ++ value
    ++ "\", expected to be a valid UUID."

def StringUuidValidator.validateE (v : StringUuidValidator)
    (value varName : String) (errors : List String) : Bool × List String :=
  if v.validate value then (true, errors)
  else (false, errors ++ [v.errorMessage varName value])

/-- `EUrlProtocolFlag` bit flags. -/
def EUrlProtocolFlag.Ws : Nat := 1
def EUrlProtocolFlag.Http : Nat := 2
def EUrlProtocolFlag.AllProtocols : Nat := 3

/-- `EUrlSecureFlag` bit flags. -/
def EUrlSecureFlag.NonSecure : Nat := 1
def EUrlSecureFlag.Secure : Nat := 2
def EUrlSecureFlag.AllSecureFlags : Nat := 3

/-- `StringUrlValidator::getRegex`, the exact string construction of
src/valdox.hpp lines 492-504: "ws" and "http" are emitted only for their
flags, but the separating `|` is emitted unconditionally, and the final `?`
is emitted whenever `secure & AllSecureFlags` is non-zero (which holds for
every flag value). -/
def StringUrlValidator.getRegex (protocol secure : Nat) : String :=
  "^((?:"
    ++ (if protocol &&& EUrlProtocolFlag.Ws ≠ 0 then "ws" else "")
    ++ "|"
    ++ (if protocol &&& EUrlProtocolFlag.Http ≠ 0 then "http" else "")
    ++ ")"
    ++ (if secure &&& EUrlSecureFlag.Secure ≠ 0 then "s" else "")
    ++ (if secure &&& EUrlSecureFlag.AllSecureFlags ≠ 0 then "?" else "")
    ++ "):\\/\\/([^\\s/$.?#].[^\\s]*)$"

structure StringUrlValidator where
  protocol : Nat
  secure : Nat
  regex : String

def StringUrlValidator.mkv (protocol secure : Nat) : StringUrlValidator :=
  ⟨protocol, secure, StringUrlValidator.getRegex protocol secure⟩

def StringUrlValidator.validate (v : StringUrlValidator) (value : String) : Bool :=
  regexMatchB v.regex value

def StringUrlValidator.errorMessage (v : StringUrlValidator)
    (varName value : String) : String :=
  "ValidationError: '" ++ varName ++ "' received \"" ++ value
    ++ "\", expected to be a valid URL of protocol '"
    ++ (if v.protocol &&& EUrlProtocolFlag.Ws ≠ 0 then "ws" else "")
    ++ "|"
    ++ (if v.protocol &&& EUrlProtocolFlag.Http ≠ 0 then "http" else "")
    ++ ")"
    ++ (if v.secure &&& EUrlSecureFlag.Secure ≠ 0 then "s" else "")
    ++ (if v.secure &&& EUrlSecureFlag.AllSecureFlags ≠ 0 then "?" else "")
    ++ "'."

def StringUrlValidator.validateE (v : StringUrlValidator)
    (value varName : String) (errors : List String) : Bool × List String :=
  if v.validate value then (true, errors)
  else (false, errors ++ [v.errorMessage varName value])

/-- `EDateTimeOffset`. -/
inductive EDateTimeOffset where
  | None
  | Optional
  | Required

/-- `StringDateTimeGlobalValidator`. -/
def StringDateTimeGlobalValidator.getRegex (offsetOption : EDateTimeOffset) : String :=
  "^(\\d\x7b4\x7d-\\d\x7b2\x7d-\\d\x7b2\x7d)T(\\d\x7b2\x7d:\\d\x7b2\x7d:\\d\x7b2\x7d(?:\\.\\d+)?)"
    ++ match offsetOption with
       | EDateTimeOffset.None => "Z$"
       | EDateTimeOffset.Optional => "([+-]\\d\x7b2\x7d:\\d\x7b2\x7d|Z)?$"
       | EDateTimeOffset.Required => "([+-]\\d\x7b2\x7d:\\d\x7b2\x7d|Z)$"

structure StringDateTimeGlobalValidator where
  offsetOption : EDateTimeOffset
  regex : String

def StringDateTimeGlobalValidator.mkv (offsetOption : EDateTimeOffset) :
    StringDateTimeGlobalValidator :=
  ⟨offsetOption, StringDateTimeGlobalValidator.getRegex offsetOption⟩

def StringDateTimeGlobalValidator.validate (v : StringDateTimeGlobalValidator)
    (value : String) : Bool :=
  regexMatchB v.regex value

def StringDateTimeGlobalValidator.errorMessage (_v : StringDateTimeGlobalValidator)
    (varName value : String) : String :=
  "ValidationError: '" ++ varName ++ "' received \"" ++ value
    ++ "\", expected to be a valid global date time."

def StringDateTimeGlobalValidator.validateE (v : StringDateTimeGlobalValidator)
    (value varName : String) (errors : List String) : Bool × List String :=
  if v.validate value then (true, errors)
  else (false, errors ++ [v.errorMessage varName value])

/-- `StringDateTimeLocalValidator`. -/
structure StringDateTimeLocalValidator where
  regex : String

def StringDateTimeLocalValidator.getRegex : String :=
  "^(\\d\x7b4\x7d-(?:0[1-9]|1[0-2])-(?:0[1-9]|[12]\\d|3[01]))T((?:[01]\\d|2[0-3]):[0-5]\\d(?::[0-5]\\d)?)$"

def StringDateTimeLocalValidator.mkv : StringDateTimeLocalValidator :=
  ⟨StringDateTimeLocalValidator.getRegex⟩

def StringDateTimeLocalValidator.validate (v : StringDateTimeLocalValidator)
    (value : String) : Bool :=
  regexMatchB v.regex value

def StringDateTimeLocalValidator.errorMessage (_v : StringDateTimeLocalValidator)
    (varName value : String) : String :=
  "ValidationError: '" ++ varName ++ "' received \"" ++ value
    ++ "\", expected to be a valid local date time."

def StringDateTimeLocalValidator.validateE (v : StringDateTimeLocalValidator)
    (value varName : String) (errors : List String) : Bool × List String :=
  if v.validate value then (true, errors)
  else (false, errors ++ [v.errorMessage varName value])

/-- `StringDateValidator`. -/
structure StringDateValidator where
  regex : String

def StringDateValidator.getRegex : String :=
  "^(\\d\x7b4\x7d)-(0[1-9]|1[0-2])-(0[1-9]|[12]\\d|3[01])$"

def StringDateValidator.mkv : StringDateValidator :=
  ⟨StringDateValidator.getRegex⟩

def StringDateValidator.validate (v : StringDateValidator) (value : String) : Bool :=
  regexMatchB v.regex value

def StringDateValidator.errorMessage (_v : StringDateValidator)
    (varName value : String) : String :=
  "ValidationError: '" ++ varName ++ "' received \"" ++ value
    ++ "\", expected to be a valid date."

def StringDateValidator.validateE (v : StringDateValidator)
    (value varName : String) (errors : List String) : Bool × List String :=
  if v.validate value then (true, errors)
  else (false, errors ++ [v.errorMessage varName value])

/-- `StringTimeValidator`. -/
structure StringTimeValidator where
  regex : String

def StringTimeValidator.getRegex : String :=
  "^([01]\\d|2[0-3]):([0-5]\\d)(?::([0-5]\\d(?:\\.\\d+)?))?$"

def StringTimeValidator.mkv : StringTimeValidator :=
  ⟨StringTimeValidator.getRegex⟩

def StringTimeValidator.validate (v : StringTimeValidator) (value : String) : Bool :=
  regexMatchB v.regex value

def StringTimeValidator.errorMessage (_v : StringTimeValidator)
    (varName value : String) : String :=
  "ValidationError: '" ++ varName ++ "' received \"" ++ value
    ++ "\", expected to be a valid time."

def StringTimeValidator.validateE (v : StringTimeValidator)
    (value varName : String) (errors : List String) : Bool × List String :=
  if v.validate value then (true, errors)
  else (false, errors ++ [v.errorMessage varName value])

/-- `EIpVersion`. -/
inductive EIpVersion where
  | Ipv4
  | Ipv6

/-- `StringIpValidator::getRegex`. -/
def StringIpValidator.getRegex (version : EIpVersion) (withPrefixLength : Bool) : String :=
  match version with
  | EIpVersion.Ipv4 =>
    "^((?:(?:25[0-5]|2[0-4]\\d|1\\d\x7b2\x7d|[1-9]\\d|\\d)\\.)\x7b3\x7d(?:25[0-5]|2[0-4]\\d|1\\d\x7b2\x7d|[1-9]\\d|\\d))"
      ++ (if withPrefixLength then "(?:/([0-9]|[12][0-9]|3[0-2]))" else "") ++ "$"
  | EIpVersion.Ipv6 =>
    "^((?:[0-9a-fA-F]\x7b1,4\x7d:)\x7b7\x7d[0-9a-fA-F]\x7b1,4\x7d|((?:[0-9a-fA-F]\x7b1,4\x7d:)\x7b0,7\x7d[0-9a-fA-F]\x7b1,4\x7d)?::((?:[0-9a-fA-F]\x7b1,4\x7d:)\x7b0,7\x7d[0-9a-fA-F]\x7b1,4\x7d)?|::)"
      ++ (if withPrefixLength then "(?:/([0-9]|[1-9][0-9]|1[01][0-9]|12[0-8]))" else "") ++ "$"

structure StringIpValidator where
  version : EIpVersion
  withPrefixLength : Bool
  regex : String

def StringIpValidator.mkv (version : EIpVersion) (withPrefixLength : Bool) :
    StringIpValidator :=
  ⟨version, withPrefixLength, StringIpValidator.getRegex version withPrefixLength⟩

def StringIpValidator.validate (v : StringIpValidator) (value : String) : Bool :=
  regexMatchB v.regex value

def StringIpValidator.errorMessage (v : StringIpValidator)
    (varName value : String) : String :=
  "ValidationError: '" ++ varName ++ "' received \"" ++ value
    ++ "\", expected to be a valid IP"
    ++ (match v.version with | EIpVersion.Ipv4 => "v4" | EIpVersion.Ipv6 => "v6")
    ++ " address" ++ (if v.withPrefixLength then " with prefix length" else "") ++ "."

def StringIpValidator.validateE (v : StringIpValidator)
    (value varName : String) (errors : List String) : Bool × List String :=
  if v.validate value then (true, errors)
  else (false, errors ++ [v.errorMessage varName value])

/-- `StringMacValidator`. -/
def StringMacValidator.getRegex (separator : String) : String :=
  "^([0-9A-Fa-f]\x7b2\x7d" ++ separator ++ ")\x7b5\x7d([0-9A-Fa-f]\x7b2\x7d)$"

structure StringMacValidator where
  separator : String
  regex : String

def StringMacValidator.mkv (separator : String) : StringMacValidator :=
  ⟨separator, StringMacValidator.getRegex separator⟩

def StringMacValidator.validate (v : StringMacValidator) (value : String) : Bool :=
  regexMatchB v.regex value

def StringMacValidator.errorMessage (v : StringMacValidator)
    (varName value : String) : String :=
  "ValidationError: '" ++ varName ++ "' received \"" ++ value
    ++ "\", expected to be a valid MAC address with separator \"" ++ v.separator ++ "\"."

def StringMacValidator.validateE (v : StringMacValidator)
    (value varName : String) (errors : List String) : Bool × List String :=
  if v.validate value then (true, errors)
  else (false, errors ++ [v.errorMessage varName value])

/-! ## The Schema Builder -/

/-- Modelled from the spec: the heterogeneous validator abstraction of §9
("define a single abstraction exposing test / explain-with-path, and have
every concrete validator implement it").  The `ValidatorBuilder` template
itself is exercised by src/tests/main_test.cpp but its definition is not
among the files under src/, so it is reconstructed here from §4.5 of the
specification. -/
structure AnyValidator (A : Type) where
  test : A → Bool
  explain : String → A → String

def NumberBetweenValidator.toAny (v : NumberBetweenValidator) : AnyValidator Int :=
  ⟨v.validate, fun path value => v.errorMessage path value⟩

def NumberGreaterThanValidator.toAny (v : NumberGreaterThanValidator) : AnyValidator Int :=
  ⟨v.validate, fun path value => v.errorMessage path value⟩

def StringLengthBetweenValidator.toAny (v : StringLengthBetweenValidator) :
    AnyValidator String :=
  ⟨v.validate, fun path value => v.errorMessage path value⟩

def StringLengthMinValidator.toAny (v : StringLengthMinValidator) : AnyValidator String :=
  ⟨v.validate, fun path value => v.errorMessage path value⟩

def StringEmailValidator.toAny (v : StringEmailValidator) : AnyValidator String :=
  ⟨v.validate, fun path value => v.errorMessage path value⟩

/-- Modelled from the spec (§4.5, path composition): each emitted message is
prefixed with `rootLabel + "." + fieldName`, with no leading dot when
`rootLabel` is empty. -/
def joinPath (rootLabel fieldName : String) : String :=
  if rootLabel = "" then fieldName else rootLabel ++ "." ++ fieldName

/-- Modelled from the spec: a vector binding applies the element validator
to each element of the accessed sequence in order, suffixing the field path
with the 0-based index `[i]` (§4.5, `addVector`).  Each element contributes
one leaf result: its test outcome and its rendered message. -/
def vectorLeaves {A : Type} (v : AnyValidator A) (path : String) :
    Nat → List A → List (Bool × String)
  | _, [] => []
  | i, x :: xs =>
    (v.test x, v.explain (path ++ "[" ++ toString i ++ "]") x)
      :: vectorLeaves v path (i + 1) xs

/-- Modelled from the spec: `ValidatorBuilder<T>` is an ordered sequence of
field bindings (§3, §4.5); a binding, given the instance and its composed
field path, yields the ordered list of leaf-check results it contains
(one for a scalar binding, one per element for a vector binding). -/
structure ValidatorBuilder (T : Type) where
  bindings : List (String × (T → String → List (Bool × String)))

def ValidatorBuilder.empty (T : Type) : ValidatorBuilder T :=
  ⟨[]⟩

/-- Modelled from the spec: `add(fieldName, accessor, validator)` registers a
scalar-field binding (§4.5). -/
def ValidatorBuilder.add {T A : Type} (b : ValidatorBuilder T) (fieldName : String)
    (accessor : T → A) (v : AnyValidator A) : ValidatorBuilder T :=
  ⟨b.bindings ++ [(fieldName,
    fun t path => [(v.test (accessor t), v.explain path (accessor t))])]⟩

/-- Modelled from the spec: `addVector(fieldName, accessor, elementValidator)`
registers a vector binding (§4.5). -/
def ValidatorBuilder.addVector {T A : Type} (b : ValidatorBuilder T) (fieldName : String)
    (accessor : T → List A) (v : AnyValidator A) : ValidatorBuilder T :=
  ⟨b.bindings ++ [(fieldName, fun t path => vectorLeaves v path 0 (accessor t))]⟩

/-- Modelled from the spec: the ordered traversal of all leaf checks, in
binding registration order and then position order (§4.5). -/
def ValidatorBuilder.leaves {T : Type} (b : ValidatorBuilder T) (t : T)
    (rootLabel : String) : List (Bool × String) :=
  (b.bindings.map (fun bind => bind.2 t (joinPath rootLabel bind.1))).flatten

/-- Modelled from the spec: `validate(instance, rootLabel, errors, stopOnError)`
(§4.5).  With `stopOnError = false` every leaf check is evaluated, one message
is appended per failing leaf in traversal order, and the call returns `true`
iff the error list gained no entry; with `stopOnError = true` the traversal
aborts at the first failing leaf, appending exactly its message.  The C++
call mutates `errors` in place; here the updated list is returned alongside
the boolean result. -/
def ValidatorBuilder.validate {T : Type} (b : ValidatorBuilder T) (t : T)
    (rootLabel : String) (errors : List String) (stopOnError : Bool) : Bool × List String :=
  let ls := b.leaves t rootLabel
  if stopOnError then
    match ls.find? (fun l => !l.1) with
    | none => (true, errors)
    | some l => (false, errors ++ [l.2])
  else
    (ls.all (fun l => l.1), errors ++ ((ls.filter (fun l => !l.1)).map (fun l => l.2)))

/-! ## Helper lemmas about substring containment -/

theorem listStartsWith_append_self (sub ys : List Char) :
    listStartsWith sub (sub ++ ys) = true := by
  induction sub with
  | nil => rfl
  | cons a as ih => simp [listStartsWith, ih]

theorem listContainsSub_of_startsWith {s sub : List Char}
    (h : listStartsWith sub s = true) : listContainsSub s sub = true := by
  cases s with
  | nil =>
    cases sub with
    | nil => rfl
    | cons b bs => simp [listStartsWith] at h
  | cons c rest => simp [listContainsSub, h]

theorem listContainsSub_append_right (xs : List Char) {ys sub : List Char}
    (h : listContainsSub ys sub = true) : listContainsSub (xs ++ ys) sub = true := by
  induction xs with
  | nil => simpa using h
  | cons x xs' ih => simp [listContainsSub, ih]

/-- Containment is preserved by prepending any string. -/
theorem strContains_append_right (a : String) {b sub : String}
    (h : strContains b sub = true) : strContains (a ++ b) sub = true := by
  show listContainsSub (a ++ b).data sub.data = true
  rw [String.data_append]
  exact listContainsSub_append_right a.data h

/-- A string contains every one of its own prefixes. -/
theorem strContains_append_self (sub ys : String) :
    strContains (sub ++ ys) sub = true := by
  show listContainsSub (sub ++ ys).data sub.data = true
  rw [String.data_append]
  exact listContainsSub_of_startsWith (listStartsWith_append_self sub.data ys.data)

theorem listStartsWith_weaken {sub xs : List Char} (ys : List Char)
    (h : listStartsWith sub xs = true) : listStartsWith sub (xs ++ ys) = true := by
  induction sub generalizing xs with
  | nil => rfl
  | cons a as ih =>
    cases xs with
    | nil => simp [listStartsWith] at h
    | cons b bs =>
      simp only [List.cons_append, listStartsWith, Bool.and_eq_true] at h ⊢
      exact ⟨h.1, ih h.2⟩

theorem listContainsSub_append_left {xs sub : List Char} (ys : List Char)
    (h : listContainsSub xs sub = true) : listContainsSub (xs ++ ys) sub = true := by
  induction xs with
  | nil =>
    cases sub with
    | nil =>
      cases ys with
      | nil => rfl
      | cons c cs => simp [listContainsSub, listStartsWith]
    | cons s ss => simp [listContainsSub] at h
  | cons c cs ih =>
    simp only [List.cons_append, listContainsSub, Bool.or_eq_true] at h ⊢
    rcases h with h | h
    · exact Or.inl (listStartsWith_weaken ys h)
    · exact Or.inr (ih h)

/-- Containment is preserved by appending any string on the right. -/
theorem strContains_append_left {a sub : String} (b : String)
    (h : strContains a sub = true) : strContains (a ++ b) sub = true := by
  show listContainsSub (a ++ b).data sub.data = true
  rw [String.data_append]
  exact listContainsSub_append_left b.data h

/-! ## Claims about the numeric `between` validator -/

/-- C3: for every `min`, `max`, inclusion flags and value `v`, the numeric
`between` validator accepts `v` exactly when
`(includeMin ? v ≥ min : v > min) && (includeMax ? v ≤ max : v < max)`;
with the default inclusive flags this is `v ≥ min && v ≤ max`. -/
theorem C3_between_validate_iff (mn mx v : Int) (bMin bMax : Bool) :
    ((NumberBetweenValidator.mk mn mx bMin bMax).validate v = true ↔
      ((if bMin then mn ≤ v else mn < v) ∧ (if bMax then v ≤ mx else v < mx)))
  ∧ ((NumberBetweenValidator.mk mn mx true true).validate v
      = (decide (mn ≤ v) && decide (v ≤ mx))) := by
  cases bMin <;> cases bMax <;>
    simp [NumberBetweenValidator.validate, ge_iff_le]

/-- C3 witness: concrete instantiation at `between(5, 10)` and `v = 7`. -/
theorem C3_between_validate_iff_witness :
    ((NumberBetweenValidator.mk 5 10 true true).validate 7 = true ↔
      ((if true then (5 : Int) ≤ 7 else (5 : Int) < 7)
        ∧ (if true then (7 : Int) ≤ 10 else (7 : Int) < 10)))
  ∧ ((NumberBetweenValidator.mk 5 10 true true).validate 7
      = (decide ((5 : Int) ≤ 7) && decide ((7 : Int) ≤ 10))) :=
  C3_between_validate_iff 5 10 7 true true

/-- C4: with the default inclusive flags and `min ≤ max`, `clamp` is
idempotent and its result always passes `validate`. -/
theorem C4_clamp_idempotent_and_valid (mn mx v : Int) (h : mn ≤ mx) :
    (NumberBetweenValidator.mk mn mx true true).clamp
        ((NumberBetweenValidator.mk mn mx true true).clamp v)
      = (NumberBetweenValidator.mk mn mx true true).clamp v
  ∧ (NumberBetweenValidator.mk mn mx true true).validate
        ((NumberBetweenValidator.mk mn mx true true).clamp v) = true := by
  simp only [NumberBetweenValidator.clamp, NumberBetweenValidator.validate, if_true,
    ge_iff_le, Bool.and_eq_true, decide_eq_true_eq]
  constructor
  · split_ifs <;> omega
  · split_ifs <;> constructor <;> omega

/-- C4 witness: `between(5, 10)` at `v = 15`. -/
theorem C4_clamp_idempotent_and_valid_witness :
    (NumberBetweenValidator.mk 5 10 true true).clamp
        ((NumberBetweenValidator.mk 5 10 true true).clamp 15)
      = (NumberBetweenValidator.mk 5 10 true true).clamp 15
  ∧ (NumberBetweenValidator.mk 5 10 true true).validate
        ((NumberBetweenValidator.mk 5 10 true true).clamp 15) = true :=
  C4_clamp_idempotent_and_valid 5 10 15 (by decide)

/-- C5 counterexample: for `greaterThan(5)` the value `5` is out of range
(`validate 5 = false`) yet `clamp` leaves it unchanged, so
`validate (clamp 5)` is `false` — refuting both "clamp pushes an
out-of-range value to the nearest in-range value" and
"test/validate(clamp(v)) is true for every v" for the strict validators. -/
theorem C5_counterexample :
    (NumberGreaterThanValidator.mk 5).clamp 5 = 5
  ∧ (NumberGreaterThanValidator.mk 5).validate ((NumberGreaterThanValidator.mk 5).clamp 5)
      = false := by
  decide

/-- C5 (amended): the non-strict validators repair every value (`clamp`
sends a value below/above the bound to the bound and leaves in-range values
unchanged, and `validate (clamp v)` always holds); the strict validators
send a value strictly outside the range to `bound + 1` / `bound - 1`, leave
in-range values unchanged, but also leave the bound itself unchanged, so
`validate (clamp v)` holds exactly for `v ≠ bound`. -/
theorem C5_one_sided_clamp_amended (b v : Int) :
    ((NumberGreaterOrEqualValidator.mk b).validate
        ((NumberGreaterOrEqualValidator.mk b).clamp v) = true)
  ∧ ((NumberLessOrEqualValidator.mk b).validate
        ((NumberLessOrEqualValidator.mk b).clamp v) = true)
  ∧ ((NumberGreaterOrEqualValidator.mk b).validate v = true
      → (NumberGreaterOrEqualValidator.mk b).clamp v = v)
  ∧ ((NumberGreaterOrEqualValidator.mk b).validate v = false
      → (NumberGreaterOrEqualValidator.mk b).clamp v = b)
  ∧ ((NumberLessOrEqualValidator.mk b).validate v = true
      → (NumberLessOrEqualValidator.mk b).clamp v = v)
  ∧ ((NumberLessOrEqualValidator.mk b).validate v = false
      → (NumberLessOrEqualValidator.mk b).clamp v = b)
  ∧ ((NumberGreaterThanValidator.mk b).validate
        ((NumberGreaterThanValidator.mk b).clamp v) = true ↔ v ≠ b)
  ∧ ((NumberLessThanValidator.mk b).validate
        ((NumberLessThanValidator.mk b).clamp v) = true ↔ v ≠ b)
  ∧ ((NumberGreaterThanValidator.mk b).validate v = true
      → (NumberGreaterThanValidator.mk b).clamp v = v)
  ∧ (v < b → (NumberGreaterThanValidator.mk b).clamp v = b + 1)
  ∧ ((NumberLessThanValidator.mk b).validate v = true
      → (NumberLessThanValidator.mk b).clamp v = v)
  ∧ (v > b → (NumberLessThanValidator.mk b).clamp v = b - 1)
  ∧ ((NumberGreaterThanValidator.mk b).clamp b = b)
  ∧ ((NumberLessThanValidator.mk b).clamp b = b) := by
  simp only [NumberGreaterOrEqualValidator.validate, NumberGreaterOrEqualValidator.clamp,
    NumberLessOrEqualValidator.validate, NumberLessOrEqualValidator.clamp,
    NumberGreaterThanValidator.validate, NumberGreaterThanValidator.clamp,
    NumberLessThanValidator.validate, NumberLessThanValidator.clamp,
    ge_iff_le, gt_iff_lt, decide_eq_true_eq, decide_eq_false_iff_not]
  split_ifs <;> omega

/-- C5 witness: the amended statement instantiated at `bound = 5`, `v = 3`. -/
theorem C5_one_sided_clamp_amended_witness :
    (NumberGreaterThanValidator.mk 5).clamp 3 = 6
  ∧ (NumberLessThanValidator.mk 10).clamp 15 = 9 :=
  ⟨(C5_one_sided_clamp_amended 5 3).2.2.2.2.2.2.2.2.2.1 (by decide),
   (C5_one_sided_clamp_amended 10 15).2.2.2.2.2.2.2.2.2.2.2.1 (by decide)⟩

/-- C10: for `min ≤ v ≤ max` the `between` validator's `clamp` returns `v`
unchanged whatever the inclusion flags; in particular with an exclusive
lower bound, `clamp min = min` even though `validate min` is `false`. -/
theorem C10_clamp_identity_in_range (mn mx : Int) (bMin bMax : Bool) (v : Int)
    (hmin : mn ≤ v) (hmax : v ≤ mx) :
    (NumberBetweenValidator.mk mn mx bMin bMax).clamp v = v
  ∧ (NumberBetweenValidator.mk mn mx false bMax).validate mn = false := by
  simp only [NumberBetweenValidator.clamp, NumberBetweenValidator.validate,
    Bool.and_eq_true, decide_eq_true_eq, gt_iff_lt]
  constructor
  · split_ifs <;> omega
  · simp

/-- C10 witness: `between(3, 7, includeMin = false)` at `v = 3`. -/
theorem C10_clamp_identity_in_range_witness :
    (NumberBetweenValidator.mk 3 7 false true).clamp 3 = 3
  ∧ (NumberBetweenValidator.mk 3 7 false true).validate 3 = false :=
  C10_clamp_identity_in_range 3 7 false true 3 (by decide) (by decide)

/-! ## The shared shape of the error-list variants -/

/-- Every validator's error-list variant is literally
`if validate value then return true else push one message and return false`;
this lemma captures the two consequences used by the claim. -/
theorem errIfShape (b : Bool) (msg : String) (errors : List String) :
    ((if b then ((true : Bool), errors) else (false, errors ++ [msg])).1 = b)
  ∧ ((if b then ((true : Bool), errors) else (false, errors ++ [msg])).2
      = errors ++ (if b then [] else [msg])) := by
  cases b <;> simp

/-- C9: for every primitive or format validator, the error-list variant
returns the same boolean as the plain `validate`; on failure it appends
exactly one message, on success nothing; existing entries are never removed
or modified (the result list is the old list with a possibly-empty
extension); and every operation is a total function (no exceptions for
ordinary invalid input). -/
theorem C9_error_list_variant :
    (∀ (v : NumberBetweenValidator) (x : Int) (n : String) (e : List String),
      (v.validateE x n e).1 = v.validate x
        ∧ (v.validateE x n e).2 = e ++ (if v.validate x then [] else [v.errorMessage n x]))
  ∧ (∀ (v : NumberGreaterThanValidator) (x : Int) (n : String) (e : List String),
      (v.validateE x n e).1 = v.validate x
        ∧ (v.validateE x n e).2 = e ++ (if v.validate x then [] else [v.errorMessage n x]))
  ∧ (∀ (v : NumberGreaterOrEqualValidator) (x : Int) (n : String) (e : List String),
      (v.validateE x n e).1 = v.validate x
        ∧ (v.validateE x n e).2 = e ++ (if v.validate x then [] else [v.errorMessage n x]))
  ∧ (∀ (v : NumberLessThanValidator) (x : Int) (n : String) (e : List String),
      (v.validateE x n e).1 = v.validate x
        ∧ (v.validateE x n e).2 = e ++ (if v.validate x then [] else [v.errorMessage n x]))
  ∧ (∀ (v : NumberLessOrEqualValidator) (x : Int) (n : String) (e : List String),
      (v.validateE x n e).1 = v.validate x
        ∧ (v.validateE x n e).2 = e ++ (if v.validate x then [] else [v.errorMessage n x]))
  ∧ (∀ (v : NumberMultipleOfValidator) (x : Int) (n : String) (e : List String),
      (v.validateE x n e).1 = v.validate x
        ∧ (v.validateE x n e).2 = e ++ (if v.validate x then [] else [v.errorMessage n x]))
  ∧ (∀ (v : NumberLiteralValidator) (x : Int) (n : String) (e : List String),
      (v.validateE x n e).1 = v.validate x
        ∧ (v.validateE x n e).2 = e ++ (if v.validate x then [] else [v.errorMessage n x]))
  ∧ (∀ (v : StringLengthBetweenValidator) (x n : String) (e : List String),
      (v.validateE x n e).1 = v.validate x
        ∧ (v.validateE x n e).2 = e ++ (if v.validate x then [] else [v.errorMessage n x]))
  ∧ (∀ (v : StringLengthMinValidator) (x n : String) (e : List String),
      (v.validateE x n e).1 = v.validate x
        ∧ (v.validateE x n e).2 = e ++ (if v.validate x then [] else [v.errorMessage n x]))
  ∧ (∀ (v : StringLengthMaxValidator) (x n : String) (e : List String),
      (v.validateE x n e).1 = v.validate x
        ∧ (v.validateE x n e).2 = e ++ (if v.validate x then [] else [v.errorMessage n x]))
  ∧ (∀ (v : StringLiteralValidator) (x n : String) (e : List String),
      (v.validateE x n e).1 = v.validate x
        ∧ (v.validateE x n e).2 = e ++ (if v.validate x then [] else [v.errorMessage n x]))
  ∧ (∀ (v : StringStartsWithValidator) (x n : String) (e : List String),
      (v.validateE x n e).1 = v.validate x
        ∧ (v.validateE x n e).2 = e ++ (if v.validate x then [] else [v.errorMessage n x]))
  ∧ (∀ (v : StringEndsWithValidator) (x n : String) (e : List String),
      (v.validateE x n e).1 = v.validate x
        ∧ (v.validateE x n e).2 = e ++ (if v.validate x then [] else [v.errorMessage n x]))
  ∧ (∀ (v : StringIncludesValidator) (x n : String) (e : List String),
      (v.validateE x n e).1 = v.validate x
        ∧ (v.validateE x n e).2 = e ++ (if v.validate x then [] else [v.errorMessage n x]))
  ∧ (∀ (v : StringRegexValidator) (fn : StringRegexMatchFn) (x n : String) (e : List String),
      (v.validateE fn x n e).1 = v.validateWith fn x
        ∧ (v.validateE fn x n e).2
            = e ++ (if v.validateWith fn x then [] else [v.errorMessage n x]))
  ∧ (∀ (v : StringEmailValidator) (x n : String) (e : List String),
      (v.validateE x n e).1 = v.validate x
        ∧ (v.validateE x n e).2 = e ++ (if v.validate x then [] else [v.errorMessage n x]))
  ∧ (∀ (v : StringUuidValidator) (x n : String) (e : List String),
      (v.validateE x n e).1 = v.validate x
        ∧ (v.validateE x n e).2 = e ++ (if v.validate x then [] else [v.errorMessage n x]))
  ∧ (∀ (v : StringUrlValidator) (x n : String) (e : List String),
      (v.validateE x n e).1 = v.validate x
        ∧ (v.validateE x n e).2 = e ++ (if v.validate x then [] else [v.errorMessage n x]))
  ∧ (∀ (v : StringDateTimeGlobalValidator) (x n : String) (e : List String),
      (v.validateE x n e).1 = v.validate x
        ∧ (v.validateE x n e).2 = e ++ (if v.validate x then [] else [v.errorMessage n x]))
  ∧ (∀ (v : StringDateTimeLocalValidator) (x n : String) (e : List String),
      (v.validateE x n e).1 = v.validate x
        ∧ (v.validateE x n e).2 = e ++ (if v.validate x then [] else [v.errorMessage n x]))
  ∧ (∀ (v : StringDateValidator) (x n : String) (e : List String),
      (v.validateE x n e).1 = v.validate x
        ∧ (v.validateE x n e).2 = e ++ (if v.validate x then [] else [v.errorMessage n x]))
  ∧ (∀ (v : StringTimeValidator) (x n : String) (e : List String),
      (v.validateE x n e).1 = v.validate x
        ∧ (v.validateE x n e).2 = e ++ (if v.validate x then [] else [v.errorMessage n x]))
  ∧ (∀ (v : StringIpValidator) (x n : String) (e : List String),
      (v.validateE x n e).1 = v.validate x
        ∧ (v.validateE x n e).2 = e ++ (if v.validate x then [] else [v.errorMessage n x]))
  ∧ (∀ (v : StringMacValidator) (x n : String) (e : List String),
      (v.validateE x n e).1 = v.validate x
        ∧ (v.validateE x n e).2 = e ++ (if v.validate x then [] else [v.errorMessage n x])) :=
  ⟨fun v x n e => errIfShape (v.validate x) (v.errorMessage n x) e,
   fun v x n e => errIfShape (v.validate x) (v.errorMessage n x) e,
   fun v x n e => errIfShape (v.validate x) (v.errorMessage n x) e,
   fun v x n e => errIfShape (v.validate x) (v.errorMessage n x) e,
   fun v x n e => errIfShape (v.validate x) (v.errorMessage n x) e,
   fun v x n e => errIfShape (v.validate x) (v.errorMessage n x) e,
   fun v x n e => errIfShape (v.validate x) (v.errorMessage n x) e,
   fun v x n e => errIfShape (v.validate x) (v.errorMessage n x) e,
   fun v x n e => errIfShape (v.validate x) (v.errorMessage n x) e,
   fun v x n e => errIfShape (v.validate x) (v.errorMessage n x) e,
   fun v x n e => errIfShape (v.validate x) (v.errorMessage n x) e,
   fun v x n e => errIfShape (v.validate x) (v.errorMessage n x) e,
   fun v x n e => errIfShape (v.validate x) (v.errorMessage n x) e,
   fun v x n e => errIfShape (v.validate x) (v.errorMessage n x) e,
   fun v fn x n e => errIfShape (v.validateWith fn x) (v.errorMessage n x) e,
   fun v x n e => errIfShape (v.validate x) (v.errorMessage n x) e,
   fun v x n e => errIfShape (v.validate x) (v.errorMessage n x) e,
   fun v x n e => errIfShape (v.validate x) (v.errorMessage n x) e,
   fun v x n e => errIfShape (v.validate x) (v.errorMessage n x) e,
   fun v x n e => errIfShape (v.validate x) (v.errorMessage n x) e,
   fun v x n e => errIfShape (v.validate x) (v.errorMessage n x) e,
   fun v x n e => errIfShape (v.validate x) (v.errorMessage n x) e,
   fun v x n e => errIfShape (v.validate x) (v.errorMessage n x) e,
   fun v x n e => errIfShape (v.validate x) (v.errorMessage n x) e⟩

/-- C9 witness: the number-between conjunct at `between(5, 10)`, value `15`,
field `num`, starting from a one-element error list. -/
theorem C9_error_list_variant_witness :
    ((NumberBetweenValidator.mk 5 10 true true).validateE 15 "num" ["old"]).1
        = (NumberBetweenValidator.mk 5 10 true true).validate 15
  ∧ ((NumberBetweenValidator.mk 5 10 true true).validateE 15 "num" ["old"]).2
        = ["old"] ++ (if (NumberBetweenValidator.mk 5 10 true true).validate 15 then []
            else [(NumberBetweenValidator.mk 5 10 true true).errorMessage "num" 15]) :=
  C9_error_list_variant.1 (NumberBetweenValidator.mk 5 10 true true) 15 "num" ["old"]

/-! ## Claims about the regex matching strategy and the format validators -/

/-- C6 counterexample: the claim says every format validator returns the
same boolean as the installed strategy applied to its fixed regex.  With
the strategy `rejectAllStrategy` installed, the email validator still
accepts "test@example.com" (its `validate` calls `std::regex_match`
directly), while the strategy returns `false` on the same pattern and
value — so the claimed equality fails. -/
theorem C6_counterexample :
    StringEmailValidator.mkv.validate "test@example.com" = true
  ∧ (rejectAllStrategy StringEmailValidator.getRegex "test@example.com" []).1 = false := by
  constructor
  · decide
  · rfl

/-- C6 (amended): only the generic `regex` validator routes through the
injectable strategy — its `match`/`validate` are exactly the strategy
applied to its pattern, so substituting the strategy changes its behaviour;
the format validators call the built-in matcher directly and are unaffected
by the installed strategy. -/
theorem C6_strategy_routing_amended :
    (∀ (fn : StringRegexMatchFn) (pat value : String) (ms : List String),
      (StringRegexValidator.mk pat).matchWith fn value ms = fn pat value ms)
  ∧ (∀ (fn : StringRegexMatchFn) (pat value : String),
      (StringRegexValidator.mk pat).validateWith fn value = (fn pat value []).1)
  ∧ ((StringRegexValidator.mk StringEmailValidator.getRegex).validateWith
        rejectAllStrategy "test@example.com" = false)
  ∧ ((StringRegexValidator.mk StringEmailValidator.getRegex).validateWith
        stringRegexMatchFn "test@example.com" = true)
  ∧ (StringEmailValidator.mkv.validate "test@example.com" = true)
  ∧ (∀ (value : String), StringEmailValidator.mkv.validate value
        = regexMatchB StringEmailValidator.getRegex value) := by
  refine ⟨fun fn pat value ms => rfl, fun fn pat value => rfl, rfl, ?_, ?_, fun value => rfl⟩
  · decide
  · decide

/-- C7: evaluation of the URL validator at a failing input.  For
`url(Http, AllSecureFlags)` the constructed regex is
`^((?:|http)s?):\/\/([^\s/$.?#].[^\s]*)$` — the separator `|` is emitted
even though the `ws` branch is absent, leaving an empty alternative — so
the string "://example.com", which has an empty scheme, is accepted;
and for `url(AllProtocols, Secure)` the trailing `?` is emitted because
`secure & AllSecureFlags` is non-zero for every flag value, so the
non-secure "http://example.com" is accepted although only secure schemes
were selected.  The claim (scheme must be one of the selected protocols,
`s` mandatory when only secure is selected, empty scheme rejected)
describes the intended contract; the code computes otherwise. -/
theorem C7_url_flag_handling_bug :
    StringUrlValidator.getRegex EUrlProtocolFlag.Http EUrlSecureFlag.AllSecureFlags
      = "^((?:|http)s?):\\/\\/([^\\s/$.?#].[^\\s]*)$"
  ∧ (StringUrlValidator.mkv EUrlProtocolFlag.Http EUrlSecureFlag.AllSecureFlags).validate
        "://example.com" = true
  ∧ (StringUrlValidator.mkv EUrlProtocolFlag.AllProtocols EUrlSecureFlag.Secure).validate
        "http://example.com" = true
  ∧ (StringUrlValidator.mkv EUrlProtocolFlag.AllProtocols
        EUrlSecureFlag.AllSecureFlags).validate "://example.com" = false := by
  refine ⟨rfl, ?_, ?_, ?_⟩ <;> decide

/-- C8: the default strategy performs a full-string match and returns one
capture per capturing group, omitting the whole match: the round trip
`regex("^([a-z]+)@([a-z]+)\.com$").match("test@example.com")` succeeds with
exactly the captures ["test", "example"]; a pattern matching only an
initial segment of the value is rejected (anchored at both ends); and the
captures are appended to the caller's list without disturbing it. -/
theorem C8_default_strategy_captures :
    (StringRegexValidator.mk "^([a-z]+)@([a-z]+)\\.com$").matchWith
        stringRegexMatchFn "test@example.com" []
      = (true, ["test", "example"])
  ∧ (stringRegexMatchFn "a" "ab" []).1 = false
  ∧ (stringRegexMatchFn "[a-z]+" "abc!" []).1 = false
  ∧ (StringRegexValidator.mk "^([a-z]+)@([a-z]+)\\.com$").matchWith
        stringRegexMatchFn "test@example.com" ["kept"]
      = (true, ["kept", "test", "example"]) := by
  refine ⟨?_, ?_, ?_, ?_⟩ <;> decide

/-! ## Claims about the Schema Builder -/

/-- C1: for a builder with three scalar bindings that all fail on the given
instance (each rendering a message that mentions its own path, as every
validator of the library does), `validate(t, "root", errors, false)`
returns `false` and appends exactly the three messages in registration
order, each containing `root.<field>`; with `stopOnError = true` it
returns `false` and appends exactly the first-registered failing field's
message. -/
theorem C1_schema_aggregation {T A1 A2 A3 : Type} (t : T) (f1 f2 f3 : String)
    (a1 : T → A1) (a2 : T → A2) (a3 : T → A3)
    (v1 : AnyValidator A1) (v2 : AnyValidator A2) (v3 : AnyValidator A3)
    (h1 : v1.test (a1 t) = false) (h2 : v2.test (a2 t) = false)
    (h3 : v3.test (a3 t) = false)
    (c1 : strContains (v1.explain ("root." ++ f1) (a1 t)) ("root." ++ f1) = true)
    (c2 : strContains (v2.explain ("root." ++ f2) (a2 t)) ("root." ++ f2) = true)
    (c3 : strContains (v3.explain ("root." ++ f3) (a3 t)) ("root." ++ f3) = true)
    (errors : List String) :
    ((((ValidatorBuilder.empty T).add f1 a1 v1).add f2 a2 v2).add f3 a3 v3).validate
        t "root" errors false
      = (false, errors ++ [v1.explain ("root." ++ f1) (a1 t),
          v2.explain ("root." ++ f2) (a2 t), v3.explain ("root." ++ f3) (a3 t)])
  ∧ ((((ValidatorBuilder.empty T).add f1 a1 v1).add f2 a2 v2).add f3 a3 v3).validate
        t "root" errors true
      = (false, errors ++ [v1.explain ("root." ++ f1) (a1 t)])
  ∧ strContains (v1.explain ("root." ++ f1) (a1 t)) ("root." ++ f1) = true
  ∧ strContains (v2.explain ("root." ++ f2) (a2 t)) ("root." ++ f2) = true
  ∧ strContains (v3.explain ("root." ++ f3) (a3 t)) ("root." ++ f3) = true := by
  refine ⟨?_, ?_, c1, c2, c3⟩ <;>
    simp [ValidatorBuilder.validate, ValidatorBuilder.leaves, ValidatorBuilder.add,
      ValidatorBuilder.empty, joinPath, h1, h2, h3]

/-- The record type of the `ValidatorBuilder` test cases of
src/tests/main_test.cpp (struct `Person`). -/
structure PersonT where
  age : Int
  name : String
  email : String

/-- The invalid person of the error-collection test (lines 598-638). -/
def personC1 : PersonT := ⟨150, "", "not-an-email"⟩

def ageValidatorC1 : AnyValidator Int :=
  (NumberBetweenValidator.mk 0 120 true true).toAny

def nameValidatorC1 : AnyValidator String :=
  (StringLengthBetweenValidator.mk 1 50).toAny

def emailValidatorC1 : AnyValidator String :=
  StringEmailValidator.mkv.toAny

/-- The schema of the error-collection test. -/
def builderC1 : ValidatorBuilder PersonT :=
  (((ValidatorBuilder.empty PersonT).add "age" PersonT.age ageValidatorC1).add
      "name" PersonT.name nameValidatorC1).add "email" PersonT.email emailValidatorC1

/-- C1 witness: the test schema (age between 0 and 120, name length between
1 and 50, email format) on the instance (150, "", "not-an-email"). -/
theorem C1_schema_aggregation_witness :
    builderC1.validate personC1 "root" [] false
      = (false, [ageValidatorC1.explain "root.age" 150,
          nameValidatorC1.explain "root.name" "",
          emailValidatorC1.explain "root.email" "not-an-email"])
  ∧ builderC1.validate personC1 "root" [] true
      = (false, [ageValidatorC1.explain "root.age" 150])
  ∧ strContains (ageValidatorC1.explain "root.age" 150) "root.age" = true
  ∧ strContains (nameValidatorC1.explain "root.name" "") "root.name" = true
  ∧ strContains (emailValidatorC1.explain "root.email" "not-an-email") "root.email"
      = true := by
  have h := C1_schema_aggregation personC1 "age" "name" "email"
    PersonT.age PersonT.name PersonT.email ageValidatorC1 nameValidatorC1 emailValidatorC1
    (by decide) (by decide) (by decide) (by decide) (by decide) (by decide) []
  exact ⟨h.1, h.2.1, h.2.2.1, h.2.2.2.1, h.2.2.2.2⟩

/-- C2: for a vector binding whose accessor yields `[0, 101, 50]` with
element validator `between(1, 100)`, validating with an error list and
`stopOnError = false` appends exactly two messages, for the elements at
indices 0 and 1 in element order, containing the suffixes `[0]` and `[1]`
respectively, and returns `false`; with `stopOnError = true` exactly the
`[0]` message is appended. -/
theorem C2_vector_binding {T : Type} (t : T) (fieldName rootLabel : String)
    (accessor : T → List Int) (hacc : accessor t = [0, 101, 50])
    (errors : List String) :
    ((ValidatorBuilder.empty T).addVector fieldName accessor
        (NumberBetweenValidator.mk 1 100 true true).toAny).validate t rootLabel errors false
      = (false, errors ++
          [(NumberBetweenValidator.mk 1 100 true true).errorMessage
              (joinPath rootLabel fieldName ++ "[0]") 0,
            (NumberBetweenValidator.mk 1 100 true true).errorMessage
              (joinPath rootLabel fieldName ++ "[1]") 101])
  ∧ ((ValidatorBuilder.empty T).addVector fieldName accessor
        (NumberBetweenValidator.mk 1 100 true true).toAny).validate t rootLabel errors true
      = (false, errors ++
          [(NumberBetweenValidator.mk 1 100 true true).errorMessage
              (joinPath rootLabel fieldName ++ "[0]") 0])
  ∧ strContains ((NumberBetweenValidator.mk 1 100 true true).errorMessage
        (joinPath rootLabel fieldName ++ "[0]") 0) "[0]" = true
  ∧ strContains ((NumberBetweenValidator.mk 1 100 true true).errorMessage
        (joinPath rootLabel fieldName ++ "[1]") 101) "[1]" = true := by
  have e0 : joinPath rootLabel fieldName ++ "[" ++ toString (0 : Nat) ++ "]"
      = joinPath rootLabel fieldName ++ "[0]" := by
    rw [String.append_assoc, String.append_assoc]
    exact congrArg (fun q => joinPath rootLabel fieldName ++ q) (by decide)
  have e1 : joinPath rootLabel fieldName ++ "[" ++ toString (1 : Nat) ++ "]"
      = joinPath rootLabel fieldName ++ "[1]" := by
    rw [String.append_assoc, String.append_assoc]
    exact congrArg (fun q => joinPath rootLabel fieldName ++ q) (by decide)
  refine ⟨?_, ?_, ?_, ?_⟩
  · simp [ValidatorBuilder.validate, ValidatorBuilder.leaves, ValidatorBuilder.addVector,
      ValidatorBuilder.empty, vectorLeaves, hacc, NumberBetweenValidator.toAny,
      NumberBetweenValidator.validate]
    exact ⟨congrArg (fun p => (NumberBetweenValidator.mk 1 100 true true).errorMessage p 0) e0,
      congrArg (fun p => (NumberBetweenValidator.mk 1 100 true true).errorMessage p 101) e1⟩
  · simp [ValidatorBuilder.validate, ValidatorBuilder.leaves, ValidatorBuilder.addVector,
      ValidatorBuilder.empty, vectorLeaves, hacc, NumberBetweenValidator.toAny,
      NumberBetweenValidator.validate]
    exact congrArg (fun p => (NumberBetweenValidator.mk 1 100 true true).errorMessage p 0) e0
  · apply strContains_append_left
    apply strContains_append_left
    apply strContains_append_left
    apply strContains_append_left
    apply strContains_append_left
    apply strContains_append_left
    apply strContains_append_left
    apply strContains_append_left
    apply strContains_append_left
    apply strContains_append_right
    apply strContains_append_right
    decide
  · apply strContains_append_left
    apply strContains_append_left
    apply strContains_append_left
    apply strContains_append_left
    apply strContains_append_left
    apply strContains_append_left
    apply strContains_append_left
    apply strContains_append_left
    apply strContains_append_left
    apply strContains_append_right
    apply strContains_append_right
    decide

/-- The record type of the vector-binding tests (struct `Product`,
restricted to the `tags` field exercised by the claim). -/
structure ProductT where
  tags : List Int

def productC2 : ProductT := ⟨[0, 101, 50]⟩

/-- The schema of the vector-binding error-collection test (lines 660-695). -/
def builderC2 : ValidatorBuilder ProductT :=
  (ValidatorBuilder.empty ProductT).addVector "tags" ProductT.tags
    (NumberBetweenValidator.mk 1 100 true true).toAny

/-- C2 witness: the test schema on `Product` with tags `[0, 101, 50]`. -/
theorem C2_vector_binding_witness :
    builderC2.validate productC2 "product" [] false
      = (false, [(NumberBetweenValidator.mk 1 100 true true).errorMessage
            "product.tags[0]" 0,
          (NumberBetweenValidator.mk 1 100 true true).errorMessage "product.tags[1]" 101])
  ∧ builderC2.validate productC2 "product" [] true
      = (false, [(NumberBetweenValidator.mk 1 100 true true).errorMessage
            "product.tags[0]" 0]) := by
  have h := C2_vector_binding productC2 "tags" "product" ProductT.tags rfl []
  exact ⟨h.1, h.2.1⟩
